import Mathlib

/-!
Verification of the streamed-progress / test-generator frontend
(`src/E2E_Testing/frontend/src/App.jsx` and
`src/E2E_Testing/frontend/src/TestGenerator.jsx`).

The two React components are thin event-driven consumers; we embed their
handlers as pure functions over explicit state, with JavaScript string
operations (`split`, `startsWith`, `slice`, `includes`, string coercion of
`undefined`) modelled on `List Char`, and the browser built-in `JSON.parse`
modelled by an executable recursive-descent function over the JSON value
shapes exercised by this client.
-/

namespace Frontend

/-! ## JavaScript string primitives -/

/-- JS `str.split(sep)` for a one-character separator, on char lists.
`"".split(c)` is `[""]`, and a trailing separator yields a trailing `""`. -/
def splitChar (sep : Char) : List Char → List (List Char)
  | [] => [[]]
  | c :: cs =>
    if c = sep then [] :: splitChar sep cs
    else
      match splitChar sep cs with
      | [] => [[c]]
      | l :: ls => (c :: l) :: ls

/-- JS `chunk.split('\n')`. -/
def jsSplitLines (s : String) : List String :=
  (splitChar '\n' s.data).map fun l => ⟨l⟩

/-- JS `line.startsWith(pre)`. -/
def jsStartsWith (s pre : String) : Bool :=
  pre.data.isPrefixOf s.data

/-- JS `line.slice(n)` (drop the first `n` UTF-16-ish units; all inputs in
play are plain characters). -/
def jsSlice (s : String) (n : Nat) : String :=
  ⟨s.data.drop n⟩

/-- Contiguous-sublist test used to model JS `String.prototype.includes`. -/
def containsSub (needle : List Char) : List Char → Bool
  | [] => needle.isEmpty
  | c :: cs => needle.isPrefixOf (c :: cs) || containsSub needle cs

/-- JS `s.includes(sub)`. -/
def jsIncludes (s sub : String) : Bool :=
  containsSub sub.data s.data

/-- JS `s.endsWith(suf)` (used only to state spec claims about buffers). -/
def jsEndsWith (s suf : String) : Bool :=
  suf.data.isSuffixOf s.data

/-! ## JSON values and `JSON.parse`

Modelled from the spec: the browser built-in `JSON.parse` is not part of
this repository; we model it for the value shapes this client exchanges
(objects with string keys, strings, integer numerals, booleans, `null`),
which covers every payload the spec and the handlers mention. -/

/-- A parsed JSON value as the handlers see it. -/
inductive JsonValue where
  | str (s : String)
  | num (n : Int)
  | bool (b : Bool)
  | nul
  | obj (members : List (String × JsonValue))

/-- Skip JSON whitespace. -/
def skipWs : List Char → List Char
  | c :: cs => if c = ' ' ∨ c = '\n' ∨ c = '\t' ∨ c = '\r' then skipWs cs else c :: cs
  | [] => []

/-- Parse the tail of a JSON string literal (after the opening quote),
returning its characters and the rest of the input. -/
def parseStringRest : List Char → Option (List Char × List Char)
  | [] => none
  | c :: cs =>
    if c = '"' then some ([], cs)
    else if c = '\\' then
      match cs with
      | [] => none
      | e :: cs2 =>
        let unesc : Option Char :=
          if e = '"' then some '"'
          else if e = '\\' then some '\\'
          else if e = '/' then some '/'
          else if e = 'n' then some '\n'
          else if e = 't' then some '\t'
          else if e = 'r' then some '\r'
          else none
        match unesc with
        | none => none
        | some u =>
          match parseStringRest cs2 with
          | some (s, rest) => some (u :: s, rest)
          | none => none
    else
      match parseStringRest cs with
      | some (s, rest) => some (c :: s, rest)
      | none => none

/-- Parse a run of decimal digits into a `Nat` (with at least one digit). -/
def parseDigits : List Char → Nat → Option (Nat × List Char)
  | c :: cs, acc =>
    if c.isDigit then
      match parseDigits cs (acc * 10 + (c.toNat - '0'.toNat)) with
      | some r => some r
      | none => some (acc * 10 + (c.toNat - '0'.toNat), cs)
    else none
  | [], _ => none

/-- Parse an integer JSON numeral (optional minus sign, digits). -/
def parseIntLit : List Char → Option (Int × List Char)
  | '-' :: cs =>
    match parseDigits cs 0 with
    | some (n, rest) => some (-(n : Int), rest)
    | none => none
  | cs =>
    match parseDigits cs 0 with
    | some (n, rest) => some ((n : Int), rest)
    | none => none

mutual

/-- Recursive-descent JSON value parser (fuel-indexed). -/
def parseValue : Nat → List Char → Option (JsonValue × List Char)
  | 0, _ => none
  | fuel + 1, cs =>
    match skipWs cs with
    | '"' :: rest =>
      match parseStringRest rest with
      | some (s, r) => some (.str ⟨s⟩, r)
      | none => none
    | '\x7b' :: rest =>
      match skipWs rest with
      | '\x7d' :: r2 => some (.obj [], r2)
      | r1 => parseMembers fuel r1
    | 't' :: 'r' :: 'u' :: 'e' :: rest => some (.bool true, rest)
    | 'f' :: 'a' :: 'l' :: 's' :: 'e' :: rest => some (.bool false, rest)
    | 'n' :: 'u' :: 'l' :: 'l' :: rest => some (.nul, rest)
    | rest =>
      match parseIntLit rest with
      | some (n, r) => some (.num n, r)
      | none => none

/-- Parse the members of a JSON object (after `{`), including the
closing brace. -/
def parseMembers : Nat → List Char → Option (JsonValue × List Char)
  | 0, _ => none
  | fuel + 1, cs =>
    match skipWs cs with
    | '"' :: rest =>
      match parseStringRest rest with
      | none => none
      | some (key, r1) =>
        match skipWs r1 with
        | ':' :: r2 =>
          match parseValue fuel r2 with
          | none => none
          | some (v, r3) =>
            match skipWs r3 with
            | ',' :: r4 =>
              match parseMembers fuel r4 with
              | some (.obj ms, r5) => some (.obj ((⟨key⟩, v) :: ms), r5)
              | _ => none
            | '\x7d' :: r4 => some (.obj [(⟨key⟩, v)], r4)
            | _ => none
        | _ => none
    | _ => none

end

/-- Modelled from the spec: the browser built-in `JSON.parse`, restricted to
the value shapes exercised by this client.  Returns `none` where `JSON.parse`
would throw a `SyntaxError`. -/
def jsonParse (s : String) : Option JsonValue :=
  match parseValue (s.data.length + 1) s.data with
  | some (v, rest) => if (skipWs rest).isEmpty then some v else none
  | none => none

/-- JS member access `data.k` on a receiver already known not to be `null`:
`none` models `undefined` (absent field, or a primitive receiver, which JS
boxes and reads as `undefined`); for duplicate keys the last occurrence
wins, as in `JSON.parse`. -/
def jsGetField (v : JsonValue) (k : String) : Option JsonValue :=
  match v with
  | .obj ms => ms.foldl (fun acc p => if p.1 = k then some p.2 else acc) none
  | _ => none

/-- JS member access `data.k` as an expression that can throw: a `null`
receiver raises a TypeError (to be caught by the enclosing `try`, if any);
every other receiver yields the field value or `undefined` as in
`jsGetField`. -/
def jsGetFieldE (v : JsonValue) (k : String) : Except String (Option JsonValue) :=
  match v with
  | .nul => .error ("Cannot read properties of null (reading '" ++ k ++ "')")
  | v => .ok (jsGetField v k)

/-- JS coercion to string as performed by `+` on a string operand
(`undefined` prints as `"undefined"`). -/
def jsToString : Option JsonValue → String
  | none => "undefined"
  | some (.str s) => s
  | some (.num n) => toString n
  | some (.bool true) => "true"
  | some (.bool false) => "false"
  | some .nul => "null"
  | some (.obj _) => "[object Object]"

/-- JS truthiness of a value (`""`, `0`, `false`, `null` are falsy;
objects are truthy). -/
def jsTruthy : JsonValue → Bool
  | .str s => s ≠ ""
  | .num n => n ≠ 0
  | .bool b => b
  | .nul => false
  | .obj _ => true

/-- JS strict equality `v === t` between a possibly-`undefined` value and a
string literal: true exactly when `v` is a string equal to `t`. -/
def jsStrictEqStr (v : Option JsonValue) (t : String) : Bool :=
  match v with
  | some (.str s) => s = t
  | _ => false

/-- JS `a || b` on an optional value (`undefined` and falsy values fall
through to the default). -/
def jsOr (v : Option JsonValue) (d : JsonValue) : JsonValue :=
  match v with
  | some x => if jsTruthy x then x else d
  | none => d

/-! ## Container Run Consumer (`TestGenerator.jsx`, `handleRunWithDocker`)

The chunked-body read loop: each chunk is decoded and split on `'\n'`
independently; a line is interpreted only when it starts with `"data: "`,
in which case the rest of the line is `JSON.parse`d — on success
`data.message` (coerced) plus a newline is appended to the accumulated
output and a `result`-typed frame overwrites the results slot; on parse
failure the whole line plus a newline is appended instead.  A line without
the prefix falls through the `if` with no `else`: it is skipped. -/

/-- The mutable state the docker loop builds: `fullOutput` mirrors
`dockerOutput`, `results` mirrors `dockerResults` (`none` = `null`). -/
structure DockerState where
  fullOutput : String
  results : Option JsonValue

/-- One iteration of `for (const line of lines)` in `handleRunWithDocker`.
The `try` covers both `JSON.parse` and the subsequent `data.message`
access, so a `data: null` line (where member access throws a TypeError)
also falls into the raw-line catch; after `data.message` has succeeded the
receiver is known non-`null`, so the later `data.type` and `data.result`
reads cannot throw. -/
def processLine (s : DockerState) (line : String) : DockerState :=
  if jsStartsWith line "data: " then
    match jsonParse (jsSlice line 6) with
    | some data =>
      match jsGetFieldE data "message" with
      | .ok msg =>
        let s1 : DockerState :=
          { s with fullOutput := s.fullOutput ++ jsToString msg ++ "\n" }
        if jsStrictEqStr (jsGetField data "type") "result" then
          { s1 with results := jsGetField data "result" }
        else s1
      | .error _ => { s with fullOutput := s.fullOutput ++ line ++ "\n" }
    | none => { s with fullOutput := s.fullOutput ++ line ++ "\n" }
  else s

/-- One iteration of the `while (true)` read loop: decode a chunk, split on
newlines, process each line. -/
def processChunk (s : DockerState) (chunk : String) : DockerState :=
  (jsSplitLines chunk).foldl processLine s

/-- The whole read loop starting from the reset state
(`setDockerOutput("")`, `setDockerResults(null)`). -/
def runDockerStream (chunks : List String) : DockerState :=
  chunks.foldl processChunk { fullOutput := "", results := none }

/-- The network outcome of the `POST /run_docker_tests` fetch: a transport
rejection, or a response with an HTTP status and a list of body chunks. -/
inductive DockerOutcome where
  | transportError (msg : String)
  | response (status : Nat) (chunks : List String)

/-- `Response.ok`: status in the inclusive range 200–299. -/
def responseOk (status : Nat) : Bool :=
  200 ≤ status && status ≤ 299

/-- Result of one `handleRunWithDocker` invocation: final docker state, the
`alert`s raised, the number of HTTP requests issued, and the final
`dockerRunning` flag. -/
structure DockerRun where
  state : DockerState
  alerts : List String
  requests : Nat
  running : Bool

/-- `handleRunWithDocker`: guard on a truthy generated script (alerting and
returning otherwise), reset output and results, issue the fetch, throw on a
non-ok status, then run the read loop; the catch writes the error text into
the output, and `finally` clears `dockerRunning`. -/
def handleRunWithDocker (prev : DockerState) (output : JsonValue)
    (outcome : DockerOutcome) : DockerRun :=
  if jsTruthy output then
    match outcome with
    | .transportError m =>
      { state := { fullOutput := "Error running Docker tests: " ++ m, results := none }
        alerts := [], requests := 1, running := false }
    | .response status chunks =>
      if responseOk status then
        { state := runDockerStream chunks, alerts := [], requests := 1, running := false }
      else
        { state := { fullOutput := "Error running Docker tests: HTTP error! status: "
                       ++ toString status
                     results := none }
          alerts := [], requests := 1, running := false }
  else
    { state := prev, alerts := ["Please generate a test script first"]
      requests := 0, running := false }

/-! ## Setup Trigger (`App.jsx`, `handleSetup`)

An `EventSource` is opened; `onmessage` parses each event's data as JSON,
appends it to the log, and — when its `message` contains the completion
marker — closes the source and clears `loading`; `onerror` closes the
source and clears `loading`. -/

/-- A log entry as pushed by the backend: `{type, message}`. -/
structure LogEntry where
  type : String
  message : String
deriving DecidableEq

/-- An occurrence on the setup event stream: a message (carrying the result
of `JSON.parse` on its data, `none` when parsing would throw) or a
transport error. -/
inductive SetupEvent where
  | message (parsed : Option LogEntry)
  | transportError

/-- State of one setup run.  `closed` records whether `evtSource.close()`
has run (after which no further events are delivered); `stops` is
instrumentation counting calls to `setLoading(false)`. -/
structure SetupState where
  logs : List LogEntry
  loading : Bool
  closed : Bool
  stops : Nat
deriving DecidableEq

/-- The completion-marker test `data.message.includes("🎉")`. -/
def hasMarker (m : String) : Bool :=
  jsIncludes m "🎉"

/-- The body of `evtSource.onmessage` as the repository writes it:
`JSON.parse` throws on malformed data — nothing catches it, so the handler
aborts with no state change (`Except.error`). -/
def onmessageJS (s : SetupState) (parsed : Option LogEntry) :
    Except Unit SetupState :=
  match parsed with
  | none => .error ()
  | some data =>
    let s1 : SetupState := { s with logs := s.logs ++ [data] }
    if hasMarker data.message then
      .ok { s1 with closed := true, loading := false, stops := s1.stops + 1 }
    else
      .ok s1

/-- Deliver one event to the handlers: a closed source delivers nothing; an
uncaught `onmessage` exception leaves the state as it was; `onerror` closes
the source and clears `loading`. -/
def setupStep (s : SetupState) (e : SetupEvent) : SetupState :=
  if s.closed then s
  else
    match e with
    | .message parsed =>
      match onmessageJS s parsed with
      | .ok s1 => s1
      | .error _ => s
    | .transportError =>
      { s with closed := true, loading := false, stops := s.stops + 1 }

/-- Run a whole setup event stream from the post-click state
(`setLogs([])`, `setLoading(true)`). -/
def runSetup (evs : List SetupEvent) : SetupState :=
  evs.foldl setupStep { logs := [], loading := true, closed := false, stops := 0 }

/-- `handleSetup`: an empty path alerts and returns (leaving the previous
logs in place); otherwise the run starts from an empty log.  Returns the
final state and the alerts raised. -/
def handleSetup (prevLogs : List LogEntry) (path : String)
    (evs : List SetupEvent) : SetupState × List String :=
  if path = "" then
    ({ logs := prevLogs, loading := false, closed := false, stops := 0 },
      ["Enter folder path"])
  else
    (runSetup evs, [])

/-! ## Generator Form (`TestGenerator.jsx`, `handleGenerate`) -/

/-- Outcome of the `POST /parse_input` fetch: transport rejection,
`res.json()` rejection, or a parsed JSON body (with the HTTP status, which
the handler never reads). -/
inductive GenOutcome where
  | transportError (msg : String)
  | jsonError (msg : String)
  | ok (status : Nat) (data : JsonValue)

/-- The generator-form state touched by `handleGenerate`. -/
structure GenState where
  output : JsonValue
  runCommand : String
  loading : Bool

/-- Result of one `handleGenerate` invocation. -/
structure GenRun where
  state : GenState
  requests : Nat
  alerts : List String

/-- `handleGenerate`: `if (!file || !projectUrl) return;` — a silent early
return, no alert; otherwise one fetch, `data.script || ""` into `output`
and the fixed run command on success, `"Error: " + err.message` into
`output` on any rejection, `loading` cleared in `finally`.  The `try` also
covers the `data.script` access itself, so a body parsing to JSON `null`
throws a TypeError there and the catch stores its message. -/
def handleGenerate (s : GenState) (file : Option String) (projectUrl : String)
    (outcome : GenOutcome) : GenRun :=
  if file.isNone ∨ projectUrl = "" then
    { state := s, requests := 0, alerts := [] }
  else
    match outcome with
    | .ok _ data =>
      match jsGetFieldE data "script" with
      | .ok sc =>
        { state := { output := jsOr sc (.str "")
                     runCommand := "pytest --headed --browser chromium"
                     loading := false }
          requests := 1, alerts := [] }
      | .error m =>
        { state := { output := .str ("Error: " ++ m), runCommand := "", loading := false }
          requests := 1, alerts := [] }
    | .transportError m =>
      { state := { output := .str ("Error: " ++ m), runCommand := "", loading := false }
        requests := 1, alerts := [] }
    | .jsonError m =>
      { state := { output := .str ("Error: " ++ m), runCommand := "", loading := false }
        requests := 1, alerts := [] }

/-- The generate button's `disabled` expression
(`loading || !file || !projectUrl`). -/
def generateButtonDisabled (loading : Bool) (file : Option String)
    (projectUrl : String) : Bool :=
  loading || file.isNone || decide (projectUrl = "")

/-! ## Sample-file download

Modelled from the spec: the client-side `sample_test_cases.csv` download
handler lives in a generator variant not included under `src/`; the spec
fixes its produced content as the nine fixed header names joined by commas,
followed by a newline, with no data rows, built client-side with no server
round trip. -/

/-- Comma-join of a list of strings (the CSV header line). -/
def joinComma : List String → String
  | [] => ""
  | [h] => h
  | h :: h2 :: rest => h ++ "," ++ joinComma (h2 :: rest)

/-- Modelled from the spec: the sample CSV blob content for a given header
list — the header names joined by commas plus a trailing newline, and
nothing else. -/
def sampleCsvContent (headers : List String) : String :=
  joinComma headers ++ "\n"

/-- Modelled from the spec: the download handler issues no HTTP request;
it returns the blob content and the request count. -/
def downloadSampleCsv (headers : List String) : String × Nat :=
  (sampleCsvContent headers, 0)

/-! ## Spec-side observations of the setup stream -/

/-- An event that terminates a setup run: a parsed message whose text
contains the completion marker, or a transport error. -/
def isTerminal : SetupEvent → Bool
  | .message (some d) => hasMarker d.message
  | .message none => false
  | .transportError => true

/-- The log entry an event contributes when it parses. -/
def entryOf : SetupEvent → Option LogEntry
  | .message p => p
  | .transportError => none

/-- The events a run processes: everything up to and including the first
terminal event. -/
def takeToTerminal : List SetupEvent → List SetupEvent
  | [] => []
  | e :: rest => if isTerminal e then [e] else e :: takeToTerminal rest

/-- Whether the pushed sequence contains a terminal signal. -/
def hasTerminalEvent (evs : List SetupEvent) : Bool :=
  evs.any isTerminal

/-! ## Concrete inputs used in the claims -/

/-- The first streamed line of the two-line container-run body: a
`log`-typed frame with message `"a"`. -/
def dockerLogLine : String := "data: \x7b\"type\":\"log\",\"message\":\"a\"\x7d"

/-- The second streamed line of the two-line container-run body: a
`result`-typed frame with `passed = 2`, `failed = 1`, `total = 3`. -/
def dockerResultLine : String :=
  "data: \x7b\"type\":\"result\",\"result\":\x7b\"passed\":2,\"failed\":1,\"total\":3\x7d\x7d"

/-- The chunked container-run body holding exactly the two lines, in
order. -/
def dockerRunBody : String := dockerLogLine ++ "\n" ++ dockerResultLine

/-- The JSON value `JSON.parse` yields for the result frame's payload. -/
def resultFrameJson : JsonValue :=
  .obj [("type", .str "result"),
        ("result", .obj [("passed", .num 2), ("failed", .num 1), ("total", .num 3)])]

/-- A generator-form state before submission. -/
def gs0 : GenState := { output := .str "", runCommand := "", loading := false }

/-- A generation response body whose `script` field is the string
`"SC"`. -/
def genData : JsonValue := .obj [("script", .str "SC")]

/-! ## Helper lemmas -/

/-- Once the event source is closed, delivering an event changes nothing. -/
theorem setupStep_closed (s : SetupState) (e : SetupEvent) (h : s.closed = true) :
    setupStep s e = s := by
  simp [setupStep, h]

/-- Once the event source is closed, the rest of the stream changes nothing. -/
theorem foldl_setupStep_closed :
    ∀ (evs : List SetupEvent) (s : SetupState), s.closed = true →
      evs.foldl setupStep s = s
  | [], _, _ => rfl
  | e :: rest, s, h => by
    rw [List.foldl_cons, setupStep_closed s e h]
    exact foldl_setupStep_closed rest s h

/-- Loop invariant of the setup consumer, from any not-yet-closed state:
the log grows by exactly the parsed entries of the processed prefix, the
loading flag is cleared (once) exactly when a terminal event occurs, and
the source is closed exactly then. -/
theorem setup_loop_invariant :
    ∀ (evs : List SetupEvent) (s : SetupState), s.closed = false →
      (evs.foldl setupStep s).logs = s.logs ++ (takeToTerminal evs).filterMap entryOf ∧
      (evs.foldl setupStep s).stops = s.stops + (if hasTerminalEvent evs then 1 else 0) ∧
      (evs.foldl setupStep s).loading = (if hasTerminalEvent evs then false else s.loading) ∧
      (evs.foldl setupStep s).closed = hasTerminalEvent evs
  | [], s, h => by
    simp [takeToTerminal, hasTerminalEvent, h]
  | .message none :: rest, s, h => by
    have hstep : setupStep s (.message none) = s := by
      simp [setupStep, h, onmessageJS]
    have ih := setup_loop_invariant rest s h
    simp only [List.foldl_cons, hstep, takeToTerminal, isTerminal, hasTerminalEvent,
      List.any_cons, Bool.false_or, entryOf, if_neg Bool.false_ne_true]
    simpa [hasTerminalEvent, entryOf, takeToTerminal] using ih
  | .message (some d) :: rest, s, h => by
    by_cases hm : hasMarker d.message = true
    · have hstep : setupStep s (.message (some d)) =
          { s with logs := s.logs ++ [d], closed := true, loading := false,
                   stops := s.stops + 1 } := by
        simp [setupStep, h, onmessageJS, hm]
      have habs := foldl_setupStep_closed rest
          { s with logs := s.logs ++ [d], closed := true, loading := false,
                   stops := s.stops + 1 } rfl
      simp [List.foldl_cons, hstep, habs, takeToTerminal, isTerminal, hm,
        hasTerminalEvent, entryOf]
    · have hstep : setupStep s (.message (some d)) = { s with logs := s.logs ++ [d] } := by
        simp [setupStep, h, onmessageJS, hm]
      have ih := setup_loop_invariant rest { s with logs := s.logs ++ [d] } (by simp [h])
      simp only [List.foldl_cons, hstep, takeToTerminal, isTerminal,
        if_neg hm, hasTerminalEvent, List.any_cons, Bool.false_or, entryOf]
      simpa [hasTerminalEvent, entryOf, takeToTerminal, hm] using ih
  | .transportError :: rest, s, h => by
    have hstep : setupStep s .transportError =
        { s with closed := true, loading := false, stops := s.stops + 1 } := by
      simp [setupStep, h]
    have habs := foldl_setupStep_closed rest
        { s with closed := true, loading := false, stops := s.stops + 1 } rfl
    simp [List.foldl_cons, hstep, habs, takeToTerminal, isTerminal,
      hasTerminalEvent, entryOf]

/-- Splitting `l ++ [sep]` on `sep` when `l` is separator-free gives the
two pieces `l` and `[]`. -/
theorem splitChar_append_sep (sep : Char) :
    ∀ (l : List Char), sep ∉ l → splitChar sep (l ++ [sep]) = [l, []]
  | [], _ => by simp [splitChar]
  | c :: l, h => by
    have hc : ¬ c = sep := fun e => h (by simp [e])
    have ih := splitChar_append_sep sep l (fun hm => h (List.mem_cons_of_mem c hm))
    simp [splitChar, hc, ih]

/-- The comma-join of newline-free strings is newline-free. -/
theorem joinComma_no_newline :
    ∀ (headers : List String), (∀ s ∈ headers, '\n' ∉ s.data) →
      '\n' ∉ (joinComma headers).data
  | [], _ => by simp [joinComma]
  | [h], hh => by simpa [joinComma] using hh h (by simp)
  | h :: h2 :: rest, hh => by
    have ih := joinComma_no_newline (h2 :: rest)
      (fun s hs => hh s (List.mem_cons_of_mem h hs))
    have h1 := hh h (by simp)
    intro hmem
    rw [joinComma, String.data_append, String.data_append] at hmem
    rcases List.mem_append.mp hmem with hmem2 | hmem2
    · rcases List.mem_append.mp hmem2 with hmem3 | hmem3
      · exact h1 hmem3
      · exact absurd hmem3 (by decide)
    · exact ih hmem2

/-! ## Claims -/

/-- Claim C1: for every sequence of occurrences on the setup event stream,
the rendered log equals the ordered concatenation of the successfully
parsed messages processed by the run (everything up to and including the
first terminal occurrence — a message containing the completion marker or
a transport error; after either, the source is closed and nothing further
is delivered); the loading ("running") flag is cleared exactly once when a
terminal occurrence exists and never otherwise; the channel is closed
exactly on a terminal occurrence; and prior log entries are carried over
unchanged (the log equation rewrites no earlier entry). -/
theorem setup_stream_correct (evs : List SetupEvent) :
    (runSetup evs).logs = (takeToTerminal evs).filterMap entryOf ∧
    (runSetup evs).stops = (if hasTerminalEvent evs then 1 else 0) ∧
    (runSetup evs).loading = !hasTerminalEvent evs ∧
    (runSetup evs).closed = hasTerminalEvent evs := by
  have h := setup_loop_invariant evs
    { logs := [], loading := true, closed := false, stops := 0 } rfl
  unfold runSetup
  rcases h with ⟨h1, h2, h3, h4⟩
  refine ⟨by simpa using h1, by simpa using h2, ?_, h4⟩
  cases ht : hasTerminalEvent evs <;> simp [ht] at h3 <;> simp [h3, ht]

/-- Claim C6: a malformed (non-JSON) payload makes `JSON.parse` throw
inside `evtSource.onmessage`; nothing in the handler catches it, so the
handler aborts (models as `Except.error`), and at stream level neither the
log sequence nor the loading flag (nor anything else) changes on that
message. -/
theorem setup_malformed_message_uncaught (s : SetupState) :
    onmessageJS s none = .error () ∧ setupStep s (.message none) = s := by
  refine ⟨rfl, ?_⟩
  cases hc : s.closed <;> simp [setupStep, onmessageJS, hc]

/-- Claim C7: run-state invariants.  (1) the setup log is append-only:
each delivered event extends the log on the right; (2) a new setup run
discards the previous run's log — the result never depends on the previous
entries; (3) a `result`-typed frame overwrites the container-run results
slot wholesale with the frame's `result` field, regardless of the previous
slot value (the slot is an `Option`, so it holds at most one value); (4) a
new container run never depends on the previous docker state — it resets
output and results before streaming. -/
theorem run_state_invariants :
    (∀ (s : SetupState) (e : SetupEvent), s.logs <+: (setupStep s e).logs) ∧
    (∀ (prev1 prev2 : List LogEntry) (path : String) (evs : List SetupEvent),
        path ≠ "" → handleSetup prev1 path evs = handleSetup prev2 path evs) ∧
    (∀ (s : DockerState) (line : String) (data : JsonValue),
        jsStartsWith line "data: " = true →
        jsonParse (jsSlice line 6) = some data →
        jsStrictEqStr (jsGetField data "type") "result" = true →
        (processLine s line).results = jsGetField data "result") ∧
    (∀ (prev1 prev2 : DockerState) (output : JsonValue) (outcome : DockerOutcome),
        jsTruthy output = true →
        handleRunWithDocker prev1 output outcome =
          handleRunWithDocker prev2 output outcome) := by
  refine ⟨?_, ?_, ?_, ?_⟩
  · intro s e
    cases hc : s.closed
    · cases e with
      | message parsed =>
        cases parsed with
        | none =>
          have : setupStep s (.message none) = s := by simp [setupStep, hc, onmessageJS]
          rw [this]
        | some d =>
          by_cases hm : hasMarker d.message = true
          · have : (setupStep s (.message (some d))).logs = s.logs ++ [d] := by
              simp [setupStep, hc, onmessageJS, hm]
            rw [this]; exact ⟨[d], rfl⟩
          · have : (setupStep s (.message (some d))).logs = s.logs ++ [d] := by
              simp [setupStep, hc, onmessageJS, hm]
            rw [this]; exact ⟨[d], rfl⟩
      | transportError =>
        have : setupStep s .transportError =
            { s with closed := true, loading := false, stops := s.stops + 1 } := by
          simp [setupStep, hc]
        rw [this]
    · rw [setupStep_closed s e hc]
  · intro prev1 prev2 path evs hp
    simp [handleSetup, hp]
  · intro s line data hstart hparse htype
    cases data with
    | obj ms => simp [processLine, hstart, hparse, jsGetFieldE, htype]
    | str a => simp [jsStrictEqStr, jsGetField] at htype
    | num n => simp [jsStrictEqStr, jsGetField] at htype
    | bool b => simp [jsStrictEqStr, jsGetField] at htype
    | nul => simp [jsStrictEqStr, jsGetField] at htype
  · intro prev1 prev2 output outcome h
    cases outcome <;> simp [handleRunWithDocker, h]

/-- Witness for C7 at concrete inputs: a transport error keeps the log a
prefix; two different previous logs give the same new run; the concrete
result frame overwrites the slot with its `result` field; two different
previous docker states give the same container run. -/
theorem run_state_invariants_witness :
    ([] : List LogEntry) <+:
      (setupStep { logs := [], loading := true, closed := false, stops := 0 }
        .transportError).logs ∧
    handleSetup [{ type := "info", message := "old" }] "p" [] =
      handleSetup [] "p" [] ∧
    (processLine { fullOutput := "", results := none } dockerResultLine).results =
      jsGetField resultFrameJson "result" ∧
    handleRunWithDocker { fullOutput := "x", results := none } (.str "s")
        (.response 200 []) =
      handleRunWithDocker { fullOutput := "", results := none } (.str "s")
        (.response 200 []) :=
  ⟨by
    exact run_state_invariants.1
      { logs := [], loading := true, closed := false, stops := 0 } .transportError,
   by exact run_state_invariants.2.1 _ _ "p" [] (by decide),
   by exact run_state_invariants.2.2.1 _ dockerResultLine resultFrameJson rfl rfl rfl,
   by exact run_state_invariants.2.2.2 _ _ (.str "s") (.response 200 []) rfl⟩

/-- Claim C2 counterexample: the line `"hello"` does not start with
`"data: "`, and the loop body has no else-branch for it — it is discarded,
not appended: the log buffer stays `""`, refuting "appended verbatim (plus
a trailing newline) … no unprefixed line is discarded". -/
theorem unprefixed_line_discarded :
    (processLine { fullOutput := "", results := none } "hello").fullOutput ≠ "hello\n" ∧
    processLine { fullOutput := "", results := none } "hello" =
      { fullOutput := "", results := none } := by
  exact ⟨by decide, rfl⟩

/-- Claim C2 (amended): a line not starting with `"data: "` is discarded —
it changes neither the log buffer nor the results slot — while a line that
does start with `"data: "` but whose payload fails JSON parsing is the one
appended verbatim (plus newline) without touching the results slot. -/
theorem docker_line_fallback (s : DockerState) (line : String) :
    (jsStartsWith line "data: " = false → processLine s line = s) ∧
    (jsStartsWith line "data: " = true → jsonParse (jsSlice line 6) = none →
      processLine s line = { s with fullOutput := s.fullOutput ++ line ++ "\n" }) := by
  constructor
  · intro h
    simp [processLine, h]
  · intro h hp
    simp [processLine, h, hp]

/-- Witness for the amended C2 at concrete lines. -/
theorem docker_line_fallback_witness :
    processLine { fullOutput := "", results := none } "hello" =
      { fullOutput := "", results := none } ∧
    processLine { fullOutput := "", results := none } "data: x" =
      { fullOutput := "" ++ "data: x" ++ "\n", results := none } :=
  ⟨by exact (docker_line_fallback { fullOutput := "", results := none } "hello").1 rfl,
   by exact (docker_line_fallback { fullOutput := "", results := none } "data: x").2 rfl rfl⟩

/-- Claim C3 counterexample: on the two-line body, the result frame also
appends its (absent) `message` field, coerced to the text `"undefined"`,
so the execution log buffer is `"a\nundefined\n"` and does not end with
`"a\n"`. -/
theorem docker_two_line_body_refuted :
    (runDockerStream [dockerRunBody]).fullOutput = "a\nundefined\n" ∧
    jsEndsWith (runDockerStream [dockerRunBody]).fullOutput "a\n" = false := by
  exact ⟨rfl, rfl⟩

/-- Claim C3 (amended): after streaming the two-line body, the execution
log buffer equals `"a\nundefined\n"` — ending with `"undefined\n"`, since
the `result` frame appends the coercion of its missing `message` field —
and the results slot equals `{passed: 2, failed: 1, total: 3}`. -/
theorem docker_two_line_body_final :
    (runDockerStream [dockerRunBody]).fullOutput = "a\nundefined\n" ∧
    jsEndsWith (runDockerStream [dockerRunBody]).fullOutput "undefined\n" = true ∧
    (runDockerStream [dockerRunBody]).results =
      some (.obj [("passed", .num 2), ("failed", .num 1), ("total", .num 3)]) := by
  exact ⟨rfl, rfl, rfl⟩

/-- Claim C4: with a selected file and a non-empty URL, `handleGenerate`
issues exactly one request; on a response whose `script` field is a string,
the stored output is exactly that string (the `|| ""` default collapses to
the same string even when it is empty); on a transport or JSON-parsing
rejection the output is the literal `"Error: "` plus the error message. -/
theorem generate_one_request_output (s : GenState) (file : Option String)
    (projectUrl : String) (outcome : GenOutcome)
    (hf : file.isSome = true) (hu : projectUrl ≠ "") :
    (handleGenerate s file projectUrl outcome).requests = 1 ∧
    (∀ status data sc, outcome = .ok status data →
        jsGetField data "script" = some (.str sc) →
        (handleGenerate s file projectUrl outcome).state.output = .str sc) ∧
    (∀ m, outcome = .transportError m →
        (handleGenerate s file projectUrl outcome).state.output =
          .str ("Error: " ++ m)) ∧
    (∀ m, outcome = .jsonError m →
        (handleGenerate s file projectUrl outcome).state.output =
          .str ("Error: " ++ m)) := by
  have hne : file ≠ none := by
    rcases file with _ | f
    · simp at hf
    · simp
  refine ⟨?_, ?_, ?_, ?_⟩
  · cases outcome with
    | ok status data => cases data <;> simp [handleGenerate, hne, hu, jsGetFieldE]
    | transportError m => simp [handleGenerate, hne, hu]
    | jsonError m => simp [handleGenerate, hne, hu]
  · rintro status data sc rfl hsc
    cases data with
    | obj ms =>
      by_cases h0 : sc = "" <;>
        simp [handleGenerate, hne, hu, jsGetFieldE, jsOr, hsc, jsTruthy, h0]
    | str a => simp [jsGetField] at hsc
    | num n => simp [jsGetField] at hsc
    | bool b => simp [jsGetField] at hsc
    | nul => simp [jsGetField] at hsc
  · rintro m rfl
    simp [handleGenerate, hne, hu]
  · rintro m rfl
    simp [handleGenerate, hne, hu]

/-- Witness for C4: one request and exact output on a concrete success and
a concrete transport failure. -/
theorem generate_one_request_output_witness :
    (handleGenerate gs0 (some "cases.csv") "https://x" (.ok 200 genData)).requests = 1 ∧
    (handleGenerate gs0 (some "cases.csv") "https://x"
        (.ok 200 genData)).state.output = .str "SC" ∧
    (handleGenerate gs0 (some "cases.csv") "https://x"
        (.transportError "boom")).state.output = .str ("Error: " ++ "boom") :=
  have h1 := generate_one_request_output gs0 (some "cases.csv") "https://x"
    (.ok 200 genData) rfl (by decide)
  have h2 := generate_one_request_output gs0 (some "cases.csv") "https://x"
    (.transportError "boom") rfl (by decide)
  ⟨h1.1, h1.2.1 200 genData "SC" rfl rfl, h2.2.2.1 "boom" rfl⟩

/-- Claim C5 counterexample: invoking generation with no file selected
issues no request but also surfaces no notice at all — the handler returns
silently and its alert list is empty, refuting "a blocking validation
notice is surfaced to the user". -/
theorem generate_no_file_no_notice :
    (handleGenerate gs0 none "https://x" (.ok 200 genData)).requests = 0 ∧
    (handleGenerate gs0 none "https://x" (.ok 200 genData)).alerts = [] := by
  exact ⟨rfl, rfl⟩

/-- Claim C5 (amended): with no file selected or an empty URL,
`handleGenerate` issues no network request and changes nothing — it
returns silently with no alert; the UI instead prevents invocation by
disabling the submit button in exactly these cases. -/
theorem generate_validation_silent (s : GenState) (file : Option String)
    (projectUrl : String) (outcome : GenOutcome)
    (h : file = none ∨ projectUrl = "") :
    (handleGenerate s file projectUrl outcome).requests = 0 ∧
    (handleGenerate s file projectUrl outcome).alerts = [] ∧
    (handleGenerate s file projectUrl outcome).state = s ∧
    generateButtonDisabled false file projectUrl = true := by
  have hguard : file.isNone ∨ projectUrl = "" := by
    rcases h with rfl | rfl
    · exact Or.inl rfl
    · exact Or.inr rfl
  have e : handleGenerate s file projectUrl outcome =
      { state := s, requests := 0, alerts := [] } := by
    unfold handleGenerate
    rw [if_pos hguard]
  refine ⟨by rw [e], by rw [e], by rw [e], ?_⟩
  rcases h with rfl | rfl <;> simp [generateButtonDisabled]

/-- Witness for the amended C5 at a concrete missing-file invocation. -/
theorem generate_validation_silent_witness :
    (handleGenerate gs0 none "https://x" (.jsonError "boom")).requests = 0 ∧
    (handleGenerate gs0 none "https://x" (.jsonError "boom")).alerts = [] ∧
    (handleGenerate gs0 none "https://x" (.jsonError "boom")).state = gs0 ∧
    generateButtonDisabled false none "https://x" = true :=
  generate_validation_silent gs0 none "https://x" (.jsonError "boom") (Or.inl rfl)

/-- Claim C8 (spec-modelled: the sample-download handler lives in a
generator variant not included under `src/`): the client-side
`sample_test_cases.csv` download issues no server round trip, and its
content is the nine fixed header names joined by commas followed by one
newline, with no data rows (splitting on newlines gives exactly the header
line and the empty remainder). -/
theorem sample_csv_download_spec (headers : List String)
    (h9 : headers.length = 9) (hn : ∀ s ∈ headers, '\n' ∉ s.data) :
    (downloadSampleCsv headers).2 = 0 ∧
    (downloadSampleCsv headers).1 = joinComma headers ++ "\n" ∧
    jsSplitLines (downloadSampleCsv headers).1 = [joinComma headers, ""] := by
  refine ⟨rfl, rfl, ?_⟩
  have hnl := joinComma_no_newline headers hn
  have hsplit := splitChar_append_sep '\n' (joinComma headers).data hnl
  have hdata : (downloadSampleCsv headers).1.data =
      (joinComma headers).data ++ ['\n'] := by
    show (joinComma headers ++ "\n").data = (joinComma headers).data ++ ['\n']
    rw [String.data_append]
  have hmk : ∀ t : String, String.mk t.data = t := fun t => by
    cases t
    rfl
  unfold jsSplitLines
  rw [hdata, hsplit]
  simp only [List.map_cons, List.map_nil, hmk]

/-- Witness for C8 with nine concrete newline-free header names. -/
theorem sample_csv_download_spec_witness :
    (downloadSampleCsv ["a", "b", "c", "d", "e", "f", "g", "h", "i"]).2 = 0 ∧
    (downloadSampleCsv ["a", "b", "c", "d", "e", "f", "g", "h", "i"]).1 =
      joinComma ["a", "b", "c", "d", "e", "f", "g", "h", "i"] ++ "\n" ∧
    jsSplitLines (downloadSampleCsv ["a", "b", "c", "d", "e", "f", "g", "h", "i"]).1 =
      [joinComma ["a", "b", "c", "d", "e", "f", "g", "h", "i"], ""] :=
  sample_csv_download_spec ["a", "b", "c", "d", "e", "f", "g", "h", "i"]
    (by decide) (by decide)

/-- Claim C9: the final docker state is not a function of the concatenated
body alone — the bytes `"data: x\n"` delivered as one chunk append
`"data: x\n"` to the log (prefixed line, unparseable payload), while the
same bytes delivered as the chunks `"da"`, `"ta: x\n"` leave the log empty
(each chunk is split on newlines independently, so the frame spanning the
boundary never matches the prefix). -/
theorem docker_chunking_not_compositional :
    ("da" ++ "ta: x\n" : String) = "data: x\n" ∧
    (runDockerStream ["data: x\n"]).fullOutput = "data: x\n" ∧
    (runDockerStream ["da", "ta: x\n"]).fullOutput = "" ∧
    (runDockerStream ["data: x\n"]).fullOutput ≠
      (runDockerStream ["da", "ta: x\n"]).fullOutput := by
  exact ⟨rfl, rfl, rfl, by decide⟩

/-- Claim C10 counterexample: the body `null` parses as JSON and lacks a
`script` field, yet the handler does not store the empty string — member
access `data.script` throws a TypeError inside the try, the catch stores
`"Error: " + err.message`, the output is truthy, so an error IS surfaced
and the output section IS rendered, refuting "stores the empty string — no
error is surfaced and the output section is simply not shown". -/
theorem generate_null_body_error :
    jsonParse "null" = some .nul ∧
    jsGetField .nul "script" = none ∧
    (handleGenerate gs0 (some "cases.csv") "https://x"
        (.ok 200 .nul)).state.output =
      .str ("Error: " ++ "Cannot read properties of null (reading 'script')") ∧
    jsTruthy (handleGenerate gs0 (some "cases.csv") "https://x"
        (.ok 200 .nul)).state.output = true := by
  exact ⟨rfl, rfl, rfl, rfl⟩

/-- Claim C10 (amended): when the generation response parses as JSON to a
non-`null` value whose `script` field is absent or falsy, the handler
stores the empty string — the output is falsy, so the output section is
simply not rendered and no error is surfaced — and the HTTP status is
never read: any two statuses give identical results.  (A body parsing to
JSON `null` instead throws at the `data.script` access and the catch
surfaces the TypeError message.) -/
theorem generate_missing_script_object_silent (s : GenState)
    (file : Option String) (projectUrl : String) (status status2 : Nat)
    (data : JsonValue)
    (hf : file.isSome = true) (hu : projectUrl ≠ "") (hnn : data ≠ .nul)
    (hs : jsGetField data "script" = none ∨
      ∃ v, jsGetField data "script" = some v ∧ jsTruthy v = false) :
    (handleGenerate s file projectUrl (.ok status data)).state.output = .str "" ∧
    jsTruthy (handleGenerate s file projectUrl (.ok status data)).state.output
      = false ∧
    handleGenerate s file projectUrl (.ok status data) =
      handleGenerate s file projectUrl (.ok status2 data) := by
  have hne : file ≠ none := by
    rcases file with _ | f
    · simp at hf
    · simp
  have hE : jsGetFieldE data "script" = .ok (jsGetField data "script") := by
    cases data with
    | nul => exact absurd rfl hnn
    | str a => rfl
    | num n => rfl
    | bool b => rfl
    | obj ms => rfl
  have hout : (handleGenerate s file projectUrl (.ok status data)).state.output
      = .str "" := by
    rcases hs with hnone | ⟨v, hv, hfalse⟩
    · simp [handleGenerate, hne, hu, hE, jsOr, hnone]
    · simp [handleGenerate, hne, hu, hE, jsOr, hv, hfalse]
  refine ⟨hout, by rw [hout]; decide, ?_⟩
  simp [handleGenerate, hne, hu]

/-- Witness for the amended C10: an empty-object body, statuses 500 and
200. -/
theorem generate_missing_script_object_silent_witness :
    (handleGenerate gs0 (some "cases.csv") "https://x"
        (.ok 500 (.obj []))).state.output = .str "" ∧
    jsTruthy (handleGenerate gs0 (some "cases.csv") "https://x"
        (.ok 500 (.obj []))).state.output = false ∧
    handleGenerate gs0 (some "cases.csv") "https://x" (.ok 500 (.obj [])) =
      handleGenerate gs0 (some "cases.csv") "https://x" (.ok 200 (.obj [])) :=
  generate_missing_script_object_silent gs0 (some "cases.csv") "https://x" 500 200
    (.obj []) rfl (by decide) (fun h => JsonValue.noConfusion h) (Or.inl rfl)

end Frontend
